import Mathlib

/-! PANSA Proxy (`src/index.js`): a shallow embedding.

The Express application of `src/index.js` is a set of GET handlers.  Each
handler either answers locally (`res.status(..).json(..)`) or hands one
`upstream.get(url)` promise to `forward`, which maps the settled promise to
the answer sent to the caller.

* JavaScript values are the type `JSVal`; `truthy`, `jsOr` (`a || b`),
  `optGet` (`a?.k`) and `dflt` (a destructuring default) follow ECMAScript.
* JavaScript strings reaching the handlers are well formed (Express obtains
  them by percent-decoding the request line), so they are Lean `String`s:
  sequences of Unicode scalar values.
* `encodeURIComponent` is the ECMAScript function: `ToString`, then the
  abstract operation `Encode` with the unreserved set
  `A-Z a-z 0-9 - _ . ! ~ * ' ( )`.
-/

namespace NetShort

/-! ## JavaScript values -/

/-- A JavaScript value, as far as the proxy inspects one: numbers are the
integers (the literals of the source are 0, 10, 20, 200, 400 and 500), arrays
and objects are finite. -/
inductive JSVal where
  | undefined : JSVal
  | null : JSVal
  | bool (b : Bool) : JSVal
  | num (n : Int) : JSVal
  | str (s : String) : JSVal
  | arr (items : List JSVal) : JSVal
  | obj (fields : List (String × JSVal)) : JSVal

/-- ECMAScript `ToBoolean`. -/
def truthy : JSVal → Bool
  | .undefined => false
  | .null => false
  | .bool b => b
  | .num n => n != 0
  | .str s => s != ""
  | .arr _ => true
  | .obj _ => true

/-- The expression `a || b`. -/
def jsOr (a b : JSVal) : JSVal := if truthy a then a else b

/-- Lookup of an own property in a field list. -/
def lookupField (k : String) : List (String × JSVal) → JSVal
  | [] => .undefined
  | (k', v) :: rest => if k' = k then v else lookupField k rest

/-- The expression `v?.k` for the data properties the proxy reads
(`response`, `status`, `data`, `message`): `undefined` on `undefined` and
`null`, the own property on an object, `undefined` on any other value. -/
def optGet (v : JSVal) (k : String) : JSVal :=
  match v with
  | .obj fields => lookupField k fields
  | _ => .undefined

/-- A destructuring default `{ k = d } = ...`: the default replaces exactly
the value `undefined`. -/
def dflt (v d : JSVal) : JSVal :=
  match v with
  | .undefined => d
  | _ => v

/-- Decimal rendering of an integer: `Number::toString` on the integers below
`10^21` in absolute value (the handlers render the literals 10, 20 and 0). -/
def intToString (n : Int) : String :=
  if n < 0 then "-" ++ Nat.repr n.natAbs else Nat.repr n.toNat

mutual
/-- ECMAScript `ToString` (`Array.prototype.toString` joins with a comma,
`Object.prototype.toString` answers `[object Object]`). -/
def ToString : JSVal → String
  | .undefined => "undefined"
  | .null => "null"
  | .bool b => if b then "true" else "false"
  | .num n => intToString n
  | .str s => s
  | .arr items => joinItems items
  | .obj _ => "[object Object]"
/-- The body of `Array.prototype.join(",")`: `undefined` and `null` elements
are rendered as the empty string. -/
def joinItems : List JSVal → String
  | [] => ""
  | [v] => itemString v
  | v :: w :: rest => itemString v ++ "," ++ joinItems (w :: rest)
/-- One element of `Array.prototype.join`. -/
def itemString : JSVal → String
  | .undefined => ""
  | .null => ""
  | .bool b => if b then "true" else "false"
  | .num n => intToString n
  | .str s => s
  | .arr items => joinItems items
  | .obj _ => "[object Object]"
end

/-! ## `encodeURIComponent` -/

/-- The unreserved set of `encodeURIComponent`: ASCII letters, digits and
the marks `- _ . ! ~ * ' ( )`, given by code point. -/
def uriUnescaped (c : Char) : Bool :=
  let n := c.toNat
  (65 ≤ n && n ≤ 90) || (97 ≤ n && n ≤ 122) || (48 ≤ n && n ≤ 57) ||
    n == 45 || n == 95 || n == 46 || n == 33 || n == 126 || n == 42 ||
    n == 39 || n == 40 || n == 41

/-- The UTF-8 octets of a code point. -/
def utf8Octets (n : Nat) : List Nat :=
  if n < 0x80 then [n]
  else if n < 0x800 then [0xC0 + n / 64, 0x80 + n % 64]
  else if n < 0x10000 then [0xE0 + n / 4096, 0x80 + n / 64 % 64, 0x80 + n % 64]
  else [0xF0 + n / 262144, 0x80 + n / 4096 % 64, 0x80 + n / 64 % 64, 0x80 + n % 64]

/-- An uppercase hexadecimal digit. -/
def hexDigit (d : Nat) : Char :=
  if d < 10 then Char.ofNat (48 + d) else Char.ofNat (55 + d)

/-- The escape `%XX` of one octet. -/
def pctOctet (b : Nat) : List Char :=
  ['%', hexDigit (b / 16), hexDigit (b % 16)]

/-- Escapes of a list of octets, in order. -/
def pctOctets : List Nat → List Char
  | [] => []
  | b :: bs => pctOctet b ++ pctOctets bs

/-- One step of `Encode`: an unreserved character is kept, any other one is
replaced by the escapes of its UTF-8 octets. -/
def encodeChar (c : Char) : List Char :=
  if uriUnescaped c then [c] else pctOctets (utf8Octets c.toNat)

/-- The loop of `Encode` over the characters of the string. -/
def encodeChars : List Char → List Char
  | [] => []
  | c :: cs => encodeChar c ++ encodeChars cs

/-- ECMAScript `Encode(string, unreservedSet)` on a well-formed string. -/
def Encode (s : String) : String := ⟨encodeChars s.data⟩

/-- The function `encodeURIComponent(v)`: `Encode(ToString(v))`. -/
def encodeURIComponent (v : JSVal) : String := Encode (ToString v)

/-! ## Percent-decoding (`decodeURIComponent`) -/

/-- Value of a hexadecimal digit of either case. -/
def hexVal (c : Char) : Option Nat :=
  let n := c.toNat
  if 48 ≤ n ∧ n ≤ 57 then some (n - 48)
  else if 65 ≤ n ∧ n ≤ 70 then some (n - 55)
  else if 97 ≤ n ∧ n ≤ 102 then some (n - 87)
  else none

/-- State of the UTF-8 reader between two escapes: continuation octets still
expected, bits gathered so far, least code point the sequence may denote. -/
structure Utf8State where
  need : Nat
  acc : Nat
  lo : Nat

/-- The UTF-8 reader at the start of a character. -/
def Utf8State.start : Utf8State := ⟨0, 0, 0⟩

/-- A code point is a Unicode scalar value. -/
def isScalar (n : Nat) : Bool := n < 0xD800 || (0xDFFF < n && n < 0x110000)

/-- Reading one octet: rejection, or the character completed by it (if any)
and the next state.  Overlong forms, surrogates and code points above
U+10FFFF are rejected, as is a stray or missing continuation octet. -/
def onOctet (st : Utf8State) (b : Nat) : Option (Option Char × Utf8State) :=
  if st.need = 0 then
    if b < 0x80 then some (some (Char.ofNat b), Utf8State.start)
    else if b < 0xC0 then none
    else if b < 0xE0 then some (none, ⟨1, b - 0xC0, 0x80⟩)
    else if b < 0xF0 then some (none, ⟨2, b - 0xE0, 0x800⟩)
    else if b < 0xF8 then some (none, ⟨3, b - 0xF0, 0x10000⟩)
    else none
  else if 0x80 ≤ b ∧ b < 0xC0 then
    let v := st.acc * 64 + (b - 0x80)
    if st.need = 1 then
      if st.lo ≤ v ∧ isScalar v then some (some (Char.ofNat v), Utf8State.start)
      else none
    else some (none, ⟨st.need - 1, v, st.lo⟩)
  else none

/-- Prefix a decoded character, when there is one. -/
def emit (out : Option Char) (cs : List Char) : List Char :=
  match out with
  | some c => c :: cs
  | none => cs

/-- The loop of ECMAScript `Decode` with an empty reserved set: `%XX`
escapes are read as UTF-8 octets, any other character stands for itself;
`none` is the `URIError`. -/
def decodeFrom (st : Utf8State) : List Char → Option (List Char)
  | [] => if st.need = 0 then some [] else none
  | c :: rest =>
    if c = '%' then
      match rest with
      | a :: b :: rest' =>
        match hexVal a, hexVal b with
        | some x, some y =>
          match onOctet st (16 * x + y) with
          | some (out, st') => (decodeFrom st' rest').map (emit out)
          | none => none
        | _, _ => none
      | _ => none
    else if st.need = 0 then (decodeFrom st rest).map (fun cs => c :: cs)
    else none

/-- The function `decodeURIComponent` on characters. -/
def decodeChars (cs : List Char) : Option (List Char) := decodeFrom Utf8State.start cs

/-- The function `decodeURIComponent`: percent-decoding of a string. -/
def decodeURIComponent (s : String) : Option String :=
  (decodeChars s.data).map String.mk

/-! ## Requests, answers and the handlers of `src/index.js` -/

/-- An inbound request as the handlers read it: `req.query` and
`req.params`, a property that is not there being `undefined`. -/
structure Request where
  query : String → JSVal
  params : String → JSVal

/-- An answer to the caller: `res.status(status).json(body)`. -/
structure Response where
  status : JSVal
  body : JSVal

/-- What a handler does with a request: it answers locally, or it issues the
single call `upstream.get(url)` and hands the promise to `forward`. -/
inductive Outcome where
  | respond (r : Response) : Outcome
  | upstreamGet (url : String) : Outcome

/-- Number of upstream requests an outcome stands for. -/
def Outcome.upstreamCalls : Outcome → Nat
  | .respond _ => 0
  | .upstreamGet _ => 1

/-- The response object `r` of a fulfilled axios promise. -/
structure AxiosResponse where
  status : JSVal
  data : JSVal

/-- A settled `upstream.get(..)` promise: fulfilled with a response, or
rejected with the value `err` that `catch` receives. -/
inductive Settled where
  | fulfilled (r : AxiosResponse) : Settled
  | rejected (err : JSVal) : Settled

/-- The function `forward(res, reqPromise)` of the source, on the settled promise. -/
def forward : Settled → Response
  | .fulfilled r => ⟨.num 200, r.data⟩
  | .rejected err =>
    let status := jsOr (optGet (optGet err "response") "status") (.num 500)
    ⟨status, .obj [("ok", .bool false),
      ("message", jsOr (optGet (optGet err "response") "data")
        (jsOr (optGet err "message") (.str "Proxy error")))]⟩

/-- Handler of `GET /health` (`res.json` answers with the status 200). -/
def health (_req : Request) : Outcome :=
  .respond ⟨.num 200, .obj [("ok", .bool true), ("name", .str "PANSA Proxy")]⟩

/-- Handler of `GET /netshort/languages`. -/
def languages (_req : Request) : Outcome := .upstreamGet "/languages"

/-- Handler of `GET /netshort/tabs`. -/
def tabs (req : Request) : Outcome :=
  let lang := jsOr (req.query "lang") (.str "id_ID")
  .upstreamGet ("/tabs?lang=" ++ encodeURIComponent lang)

/-- Handler of `GET /netshort/home`. -/
def home (req : Request) : Outcome :=
  let tabId := req.query "tabId"
  let limit := dflt (req.query "limit") (.num 10)
  let offset := dflt (req.query "offset") (.num 0)
  let lang := dflt (req.query "lang") (.str "id_ID")
  if !truthy tabId then
    .respond ⟨.num 400, .obj [("ok", .bool false), ("message", .str "tabId required")]⟩
  else
    let url :=
      ("/get-home?tabId=" ++ encodeURIComponent tabId) ++
      ("&limit=" ++ encodeURIComponent limit) ++
      ("&offset=" ++ encodeURIComponent offset) ++
      ("&lang=" ++ encodeURIComponent lang)
    .upstreamGet url

/-- Handler of `GET /netshort/recommend`. -/
def recommend (req : Request) : Outcome :=
  let limit := dflt (req.query "limit") (.num 10)
  let offset := dflt (req.query "offset") (.num 0)
  let lang := dflt (req.query "lang") (.str "id_ID")
  let url :=
    ("/recommend?limit=" ++ encodeURIComponent limit) ++
    ("&offset=" ++ encodeURIComponent offset) ++
    ("&lang=" ++ encodeURIComponent lang)
  .upstreamGet url

/-- Handler of `GET /netshort/member`. -/
def member (req : Request) : Outcome :=
  let limit := dflt (req.query "limit") (.num 10)
  let offset := dflt (req.query "offset") (.num 0)
  let lang := dflt (req.query "lang") (.str "id_ID")
  let url :=
    ("/member?limit=" ++ encodeURIComponent limit) ++
    ("&offset=" ++ encodeURIComponent offset) ++
    ("&lang=" ++ encodeURIComponent lang)
  .upstreamGet url

/-- Handler of `GET /netshort/search`. -/
def search (req : Request) : Outcome :=
  let keyword := dflt (req.query "keyword") (.str "")
  let limit := dflt (req.query "limit") (.num 20)
  let offset := dflt (req.query "offset") (.num 0)
  let lang := dflt (req.query "lang") (.str "id_ID")
  let url :=
    ("/search?keyword=" ++ encodeURIComponent keyword) ++
    ("&limit=" ++ encodeURIComponent limit) ++
    ("&offset=" ++ encodeURIComponent offset) ++
    ("&lang=" ++ encodeURIComponent lang)
  .upstreamGet url

/-- Handler of `GET /netshort/search/recommend`. -/
def searchRecommend (req : Request) : Outcome :=
  let lang := jsOr (req.query "lang") (.str "id_ID")
  .upstreamGet ("/search/recommend?lang=" ++ encodeURIComponent lang)

/-- Handler of `GET /netshort/episodes/:shortPlayId`. -/
def episodes (req : Request) : Outcome :=
  let shortPlayId := req.params "shortPlayId"
  .upstreamGet ("/getepisode/" ++ encodeURIComponent shortPlayId ++ "?")

/-- Handler of `GET /netshort/video`. -/
def video (req : Request) : Outcome :=
  let shortPlayId := req.query "shortPlayId"
  let episodeId := req.query "episodeId"
  let episodeNo := req.query "episodeNo"
  if !truthy shortPlayId || !truthy episodeId || !truthy episodeNo then
    .respond ⟨.num 400, .obj [("ok", .bool false),
      ("message", .str "shortPlayId, episodeId, episodeNo required")]⟩
  else
    let url :=
      ("/getepisode/" ++ encodeURIComponent shortPlayId ++ "/" ++ encodeURIComponent episodeId) ++
      ("?episodeNo=" ++ encodeURIComponent episodeNo)
    .upstreamGet url

/-- A route served end to end: the handler's outcome, an upstream call being
settled by `up` and answered through `forward`. -/
def serve (handler : Request → Outcome) (up : String → Settled) (req : Request) : Response :=
  match handler req with
  | .respond r => r
  | .upstreamGet url => forward (up url)

/-- A query object given by its list of properties. -/
def queryOf (fields : List (String × JSVal)) : String → JSVal :=
  fun k => lookupField k fields

/-- A request with the given query properties and no route parameter. -/
def Request.ofQuery (fields : List (String × JSVal)) : Request :=
  ⟨queryOf fields, fun _ => .undefined⟩

/-! ## Reading an upstream URL back -/

/-- Split a character list at every occurrence of `sep`. -/
def splitAll (sep : Char) : List Char → List (List Char)
  | [] => [[]]
  | c :: cs =>
    if c = sep then [] :: splitAll sep cs
    else
      match splitAll sep cs with
      | [] => [[c]]
      | p :: ps => (c :: p) :: ps

/-- Cut a character list at the first occurrence of `sep` (which is dropped);
without one, the second part is empty. -/
def cutAt (sep : Char) : List Char → List Char × List Char
  | [] => ([], [])
  | c :: cs =>
    if c = sep then ([], cs)
    else ((c :: (cutAt sep cs).1), (cutAt sep cs).2)

/-- One `key=value` piece of a query string, cut at its first `=` and
percent-decoded on both sides. -/
def parsePiece (piece : List Char) : Option (String × String) :=
  match decodeChars (cutAt '=' piece).1, decodeChars (cutAt '=' piece).2 with
  | some k, some v => some (⟨k⟩, ⟨v⟩)
  | _, _ => none

/-- Decode a list of pieces, skipping the empty ones. -/
def parsePieces : List (List Char) → Option (List (String × String))
  | [] => some []
  | p :: ps =>
    if p = [] then parsePieces ps
    else
      match parsePiece p, parsePieces ps with
      | some kv, some kvs => some (kv :: kvs)
      | _, _ => none

/-- The key/value pairs of a query string: split at `&`, each piece cut at its
first `=` and percent-decoded. -/
def parseQuery (q : String) : Option (List (String × String)) :=
  parsePieces (splitAll '&' q.data)

/-- The path of a URL reference: what precedes its first `?`. -/
def urlPath (url : String) : String := ⟨(cutAt '?' url.data).1⟩

/-- The query of a URL reference: what follows its first `?`. -/
def urlQuery (url : String) : String := ⟨(cutAt '?' url.data).2⟩

/-- The key/value pairs carried by the upstream call of an outcome. -/
def Outcome.queryPairs : Outcome → Option (List (String × String))
  | .respond _ => none
  | .upstreamGet url => parseQuery (urlQuery url)

/-! ## Writing a query string -/

/-- The text `key=<escaped value>`. -/
def renderPair (kv : String × String) : String := kv.1 ++ "=" ++ Encode kv.2

/-- The pairs written one after the other, joined by `&`. -/
def renderQuery : List (String × String) → String
  | [] => ""
  | [kv] => renderPair kv
  | kv :: kv' :: rest => renderPair kv ++ "&" ++ renderQuery (kv' :: rest)

/-- A key made of unreserved characters only. -/
def plainKey (k : String) : Bool := k.data.all uriUnescaped

/-- A delimiter of URL syntax: neither unreserved nor the escape sign. -/
def isDelimiter (ch : Char) : Bool := !uriUnescaped ch && ch != '%'

/-! ## Dot segments (RFC 3986, 5.2.4) -/

/-- Removal of dot segments on the segments of an absolute path: `.` is
dropped, `..` also drops the segment before it, and a dot segment in last
position leaves an empty last segment (a trailing `/`).  The first argument
is the output so far, last segment first. -/
def dropDots : List (List Char) → List (List Char) → List (List Char)
  | out, [] => out.reverse
  | out, seg :: rest =>
    if seg = ['.'] then
      match rest with
      | [] => ([] :: out).reverse
      | _ :: _ => dropDots out rest
    else if seg = ['.', '.'] then
      match rest with
      | [] => ([] :: out.tail).reverse
      | _ :: _ => dropDots out.tail rest
    else dropDots (seg :: out) rest

/-- The procedure `remove_dot_segments` on an absolute path (any other
reference is left as it is). -/
def removeDotSegments (path : String) : String :=
  match splitAll '/' path.data with
  | [] :: segs => ⟨'/' :: List.intercalate ['/'] (dropDots [] segs)⟩
  | _ => path

/-! ## Escapes are read back -/

theorem hexVal_hexDigit (d : Nat) (h : d < 16) : hexVal (hexDigit d) = some d := by
  interval_cases d <;> rfl

theorem onOctet_ascii (b : Nat) (h : b < 0x80) :
    onOctet Utf8State.start b = some (some (Char.ofNat b), Utf8State.start) := by
  simp [onOctet, Utf8State.start, h]

theorem onOctet_lead2 (x : Nat) (h : x < 32) :
    onOctet Utf8State.start (0xC0 + x) = some (none, ⟨1, x, 0x80⟩) := by
  have h1 : ¬ (0xC0 + x < 0x80) := by omega
  have h2 : ¬ (0xC0 + x < 0xC0) := by omega
  have h3 : 0xC0 + x < 0xE0 := by omega
  simp [onOctet, Utf8State.start, h1, h2, h3]

theorem onOctet_lead3 (x : Nat) (h : x < 16) :
    onOctet Utf8State.start (0xE0 + x) = some (none, ⟨2, x, 0x800⟩) := by
  have h1 : ¬ (0xE0 + x < 0x80) := by omega
  have h2 : ¬ (0xE0 + x < 0xC0) := by omega
  have h3 : ¬ (0xE0 + x < 0xE0) := by omega
  have h4 : 0xE0 + x < 0xF0 := by omega
  simp [onOctet, Utf8State.start, h1, h2, h3, h4]

theorem onOctet_lead4 (x : Nat) (h : x < 8) :
    onOctet Utf8State.start (0xF0 + x) = some (none, ⟨3, x, 0x10000⟩) := by
  have h1 : ¬ (0xF0 + x < 0x80) := by omega
  have h2 : ¬ (0xF0 + x < 0xC0) := by omega
  have h3 : ¬ (0xF0 + x < 0xE0) := by omega
  have h4 : ¬ (0xF0 + x < 0xF0) := by omega
  have h5 : 0xF0 + x < 0xF8 := by omega
  simp [onOctet, Utf8State.start, h1, h2, h3, h4, h5]

theorem onOctet_cont (need acc lo x : Nat) (hn : 2 ≤ need) (h : x < 64) :
    onOctet ⟨need, acc, lo⟩ (0x80 + x) = some (none, ⟨need - 1, acc * 64 + x, lo⟩) := by
  have h1 : ¬ (need = 0) := by omega
  have h2 : ¬ (need = 1) := by omega
  have h3 : 0x80 + x < 0xC0 := by omega
  simp [onOctet, h1, h2, h3]

theorem onOctet_last (acc lo x : Nat) (h : x < 64) (hlo : lo ≤ acc * 64 + x)
    (hs : isScalar (acc * 64 + x) = true) :
    onOctet ⟨1, acc, lo⟩ (0x80 + x) =
      some (some (Char.ofNat (acc * 64 + x)), Utf8State.start) := by
  have h3 : 0x80 + x < 0xC0 := by omega
  simp [onOctet, h3, hlo, hs]

theorem decodeFrom_pctOctet (st : Utf8State) (b : Nat) (hb : b < 256) (rest : List Char) :
    decodeFrom st (pctOctet b ++ rest) =
      match onOctet st b with
      | some (out, st') => (decodeFrom st' rest).map (emit out)
      | none => none := by
  have h1 : hexVal (hexDigit (b / 16)) = some (b / 16) := hexVal_hexDigit _ (by omega)
  have h2 : hexVal (hexDigit (b % 16)) = some (b % 16) := hexVal_hexDigit _ (by omega)
  have h3 : 16 * (b / 16) + b % 16 = b := Nat.div_add_mod b 16
  simp only [pctOctet, List.cons_append, List.nil_append, decodeFrom, if_true, h1, h2, h3]
  rfl

theorem decodeFrom_literal (st : Utf8State) (c : Char) (rest : List Char) (h : c ≠ '%') :
    decodeFrom st (c :: rest) =
      if st.need = 0 then (decodeFrom st rest).map (fun cs => c :: cs) else none := by
  cases rest with
  | nil => simp [decodeFrom, h]
  | cons a r => cases r <;> simp [decodeFrom, h]

theorem uriUnescaped_ne_pct (c : Char) (h : uriUnescaped c = true) : c ≠ '%' := by
  intro hc
  subst hc
  exact absurd h (by decide)

theorem char_scalar (c : Char) : isScalar c.toNat = true := by
  have hv := c.valid
  simp only [isScalar, Bool.or_eq_true, Bool.and_eq_true, decide_eq_true_eq]
  exact hv

theorem decodeFrom_encodeChar (c : Char) (rest : List Char) :
    decodeFrom Utf8State.start (encodeChar c ++ rest) =
      (decodeFrom Utf8State.start rest).map (fun cs => c :: cs) := by
  unfold encodeChar
  by_cases hu : uriUnescaped c = true
  · have hne := uriUnescaped_ne_pct c hu
    simp only [hu, if_true, List.cons_append, List.nil_append]
    rw [decodeFrom_literal _ _ _ hne]
    rfl
  · have hs := char_scalar c
    simp only [isScalar, Bool.or_eq_true, Bool.and_eq_true, decide_eq_true_eq] at hs
    have hof : Char.ofNat c.toNat = c := Char.ofNat_toNat c
    simp only [hu, if_false, Bool.false_eq_true]
    generalize hn : c.toNat = n at hs hof
    unfold utf8Octets
    by_cases h1 : n < 0x80
    · simp only [h1, if_true, pctOctets, List.append_nil]
      rw [decodeFrom_pctOctet _ _ (by omega), onOctet_ascii _ h1, hof]
      rfl
    · by_cases h2 : n < 0x800
      · simp only [h1, h2, if_true, if_false, pctOctets, List.append_nil, List.append_assoc]
        rw [decodeFrom_pctOctet _ _ (by omega), onOctet_lead2 _ (by omega)]
        dsimp only
        have e : n / 64 * 64 + n % 64 = n := by omega
        rw [decodeFrom_pctOctet _ _ (by omega),
          onOctet_last _ _ _ (by omega) (by omega) (by rw [e]; simp [isScalar]; omega), e, hof]
        simp only [Option.map_map]
        rfl
      · by_cases h3 : n < 0x10000
        · simp only [h1, h2, h3, if_true, if_false, pctOctets, List.append_nil, List.append_assoc]
          rw [decodeFrom_pctOctet _ _ (by omega), onOctet_lead3 _ (by omega)]
          dsimp only
          have e : (n / 4096 * 64 + n / 64 % 64) * 64 + n % 64 = n := by omega
          rw [decodeFrom_pctOctet _ _ (by omega), onOctet_cont _ _ _ _ (by omega) (by omega)]
          dsimp only
          rw [decodeFrom_pctOctet _ _ (by omega),
            onOctet_last _ _ _ (by omega) (by omega) (by rw [e]; simp [isScalar]; omega), e, hof]
          simp only [Option.map_map]
          rfl
        · simp only [h1, h2, h3, if_false, pctOctets, List.append_nil, List.append_assoc]
          rw [decodeFrom_pctOctet _ _ (by omega), onOctet_lead4 _ (by omega)]
          dsimp only
          have e : ((n / 262144 * 64 + n / 4096 % 64) * 64 + n / 64 % 64) * 64 + n % 64 = n := by
            omega
          rw [decodeFrom_pctOctet _ _ (by omega), onOctet_cont _ _ _ _ (by omega) (by omega)]
          dsimp only
          rw [decodeFrom_pctOctet _ _ (by omega), onOctet_cont _ _ _ _ (by omega) (by omega)]
          dsimp only
          rw [decodeFrom_pctOctet _ _ (by omega),
            onOctet_last _ _ _ (by omega) (by omega) (by rw [e]; simp [isScalar]; omega), e, hof]
          simp only [Option.map_map]
          rfl

theorem decodeChars_encodeChars (cs : List Char) :
    decodeChars (encodeChars cs) = some cs := by
  induction cs with
  | nil => rfl
  | cons c cs ih =>
    unfold decodeChars at ih ⊢
    rw [encodeChars, decodeFrom_encodeChar, ih]
    rfl

/-- Percent-decoding undoes `Encode` on every well-formed string. -/
theorem decodeURIComponent_Encode (s : String) :
    decodeURIComponent (Encode s) = some s := by
  simp [decodeURIComponent, Encode, decodeChars_encodeChars]

/-! ## Escaped text holds no delimiter -/

theorem hexDigit_unescaped (d : Nat) (h : d < 16) : uriUnescaped (hexDigit d) = true := by
  interval_cases d <;> rfl

theorem pctOctet_safe (b : Nat) (hb : b < 256) (ch : Char) (h : ch ∈ pctOctet b) :
    uriUnescaped ch = true ∨ ch = '%' := by
  simp only [pctOctet, List.mem_cons, List.mem_singleton, List.not_mem_nil, or_false] at h
  rcases h with h | h | h
  · exact Or.inr h
  · exact Or.inl (h ▸ hexDigit_unescaped _ (by omega))
  · exact Or.inl (h ▸ hexDigit_unescaped _ (by omega))

theorem pctOctets_safe (bs : List Nat) (hbs : ∀ b ∈ bs, b < 256) (ch : Char)
    (h : ch ∈ pctOctets bs) : uriUnescaped ch = true ∨ ch = '%' := by
  induction bs with
  | nil => simp [pctOctets] at h
  | cons b bs ih =>
    simp only [pctOctets, List.mem_append] at h
    rcases h with h | h
    · exact pctOctet_safe b (hbs b (List.mem_cons_self _ _)) ch h
    · exact ih (fun x hx => hbs x (List.mem_cons_of_mem _ hx)) h

theorem utf8Octets_lt (n : Nat) (hn : n < 0x110000) : ∀ b ∈ utf8Octets n, b < 256 := by
  intro b hb
  unfold utf8Octets at hb
  split_ifs at hb <;>
    simp only [List.mem_cons, List.mem_singleton, List.not_mem_nil, or_false] at hb <;>
    omega

theorem char_lt (c : Char) : c.toNat < 0x110000 := by
  have hv := c.valid
  have : c.val.toNat < 55296 ∨ 57343 < c.val.toNat ∧ c.val.toNat < 1114112 := hv
  show c.val.toNat < 0x110000
  omega

theorem encodeChar_safe (c ch : Char) (h : ch ∈ encodeChar c) :
    uriUnescaped ch = true ∨ ch = '%' := by
  unfold encodeChar at h
  split_ifs at h with hu
  · simp only [List.mem_singleton] at h
    exact Or.inl (h ▸ hu)
  · exact pctOctets_safe _ (utf8Octets_lt _ (char_lt c)) ch h

theorem encodeChars_safe (cs : List Char) (ch : Char) (h : ch ∈ encodeChars cs) :
    uriUnescaped ch = true ∨ ch = '%' := by
  induction cs with
  | nil => simp [encodeChars] at h
  | cons c cs ih =>
    simp only [encodeChars, List.mem_append] at h
    rcases h with h | h
    · exact encodeChar_safe c ch h
    · exact ih h

theorem encodeChars_no_delimiter (cs : List Char) (sep : Char) (hsep : isDelimiter sep = true) :
    ∀ ch ∈ encodeChars cs, ch ≠ sep := by
  intro ch h heq
  subst heq
  simp only [isDelimiter, Bool.and_eq_true, Bool.not_eq_true', bne_iff_ne, ne_eq] at hsep
  rcases encodeChars_safe cs ch h with h1 | h1
  · rw [hsep.1] at h1; exact Bool.noConfusion h1
  · exact hsep.2 h1

theorem encodeChars_plain (cs : List Char) (h : ∀ ch ∈ cs, uriUnescaped ch = true) :
    encodeChars cs = cs := by
  induction cs with
  | nil => rfl
  | cons c cs ih =>
    have hc := h c (List.mem_cons_self _ _)
    simp only [encodeChars, encodeChar, hc, if_true, List.cons_append, List.nil_append]
    rw [ih (fun x hx => h x (List.mem_cons_of_mem _ hx))]

/-! ## Splitting and cutting -/

theorem splitAll_ne_nil (sep : Char) (cs : List Char) : splitAll sep cs ≠ [] := by
  cases cs with
  | nil => simp [splitAll]
  | cons c cs =>
    simp only [splitAll]
    split_ifs
    · simp
    · split <;> simp

theorem splitAll_append (sep : Char) (a rest : List Char) (h : ∀ ch ∈ a, ch ≠ sep) :
    splitAll sep (a ++ sep :: rest) = a :: splitAll sep rest := by
  induction a with
  | nil => simp [splitAll]
  | cons c cs ih =>
    have hc : c ≠ sep := h c (List.mem_cons_self _ _)
    simp only [List.cons_append, splitAll, hc, if_false, List.append_eq]
    rw [ih (fun x hx => h x (List.mem_cons_of_mem _ hx))]

theorem splitAll_whole (sep : Char) (a : List Char) (h : ∀ ch ∈ a, ch ≠ sep) :
    splitAll sep a = [a] := by
  induction a with
  | nil => rfl
  | cons c cs ih =>
    have hc : c ≠ sep := h c (List.mem_cons_self _ _)
    simp only [splitAll, hc, if_false]
    rw [ih (fun x hx => h x (List.mem_cons_of_mem _ hx))]

theorem cutAt_append (sep : Char) (a rest : List Char) (h : ∀ ch ∈ a, ch ≠ sep) :
    cutAt sep (a ++ sep :: rest) = (a, rest) := by
  induction a with
  | nil => simp [cutAt]
  | cons c cs ih =>
    have hc : c ≠ sep := h c (List.mem_cons_self _ _)
    simp only [List.cons_append, cutAt, hc, if_false, List.append_eq]
    rw [ih (fun x hx => h x (List.mem_cons_of_mem _ hx))]

/-! ## A query string written from key/value pairs is read back -/

theorem plainKey_mem (k : String) (h : plainKey k = true) :
    ∀ ch ∈ k.data, uriUnescaped ch = true := by
  simpa [plainKey, List.all_eq_true] using h

theorem renderPair_data (kv : String × String) :
    (renderPair kv).data = kv.1.data ++ '=' :: encodeChars kv.2.data := by
  simp [renderPair, Encode, String.data_append]

theorem renderPair_no_amp (kv : String × String) (hk : plainKey kv.1 = true) :
    ∀ ch ∈ (renderPair kv).data, ch ≠ '&' := by
  intro ch h
  rw [renderPair_data] at h
  simp only [List.mem_append, List.mem_cons] at h
  rcases h with h | h | h
  · intro heq
    subst heq
    exact absurd (plainKey_mem _ hk _ h) (by decide)
  · rw [h]; decide
  · exact encodeChars_no_delimiter _ '&' (by decide) ch h

theorem renderPair_ne_nil (kv : String × String) : (renderPair kv).data ≠ [] := by
  rw [renderPair_data]
  simp

theorem parsePiece_renderPair (kv : String × String) (hk : plainKey kv.1 = true) :
    parsePiece (renderPair kv).data = some kv := by
  have hcut : cutAt '=' (renderPair kv).data = (kv.1.data, encodeChars kv.2.data) := by
    rw [renderPair_data]
    apply cutAt_append
    intro ch h heq
    subst heq
    exact absurd (plainKey_mem _ hk _ h) (by decide)
  have hkey : decodeChars kv.1.data = some kv.1.data := by
    have := decodeChars_encodeChars kv.1.data
    rwa [encodeChars_plain _ (plainKey_mem _ hk)] at this
  simp only [parsePiece, hcut, hkey, decodeChars_encodeChars]

theorem parseQuery_renderQuery (kvs : List (String × String))
    (hk : ∀ kv ∈ kvs, plainKey kv.1 = true) :
    parseQuery (renderQuery kvs) = some kvs := by
  induction kvs with
  | nil => rfl
  | cons kv rest ih =>
    have hkv := hk kv (List.mem_cons_self _ _)
    have hrest := ih (fun x hx => hk x (List.mem_cons_of_mem _ hx))
    cases rest with
    | nil =>
      simp only [parseQuery, renderQuery]
      rw [splitAll_whole _ _ (renderPair_no_amp kv hkv)]
      simp [parsePieces, renderPair_ne_nil, parsePiece_renderPair kv hkv]
    | cons kv' rest' =>
      simp only [parseQuery] at hrest ⊢
      simp only [renderQuery, String.data_append, List.append_assoc]
      rw [List.singleton_append, splitAll_append _ _ _ (renderPair_no_amp kv hkv)]
      simp [parsePieces, renderPair_ne_nil, parsePiece_renderPair kv hkv, hrest]

theorem keys_plain (kvs : List (String × String))
    (h : (kvs.map Prod.fst).all plainKey = true) : ∀ kv ∈ kvs, plainKey kv.1 = true := by
  intro kv hkv
  rw [List.all_eq_true] at h
  exact h kv.1 (List.mem_map_of_mem Prod.fst hkv)

theorem urlQuery_append (p q : String) (h : ∀ ch ∈ p.data, ch ≠ '?') :
    urlQuery (p ++ "?" ++ q) = q := by
  simp only [urlQuery, String.data_append, List.append_assoc, List.singleton_append]
  rw [cutAt_append _ _ _ h]

theorem urlPath_append (p q : String) (h : ∀ ch ∈ p.data, ch ≠ '?') :
    urlPath (p ++ "?" ++ q) = p := by
  simp only [urlPath, String.data_append, List.append_assoc, List.singleton_append]
  rw [cutAt_append _ _ _ h]

/-- The pairs read from `path?<written pairs>`, for a path without `?` and
plain keys, are the pairs written. -/
theorem queryPairs_render (p : String) (kvs : List (String × String))
    (hp : ∀ ch ∈ p.data, ch ≠ '?') (hk : ∀ kv ∈ kvs, plainKey kv.1 = true) :
    (Outcome.upstreamGet (p ++ "?" ++ renderQuery kvs)).queryPairs = some kvs := by
  simp only [Outcome.queryPairs]
  rw [urlQuery_append _ _ hp, parseQuery_renderQuery _ hk]

/-! ## The upstream URL of each route, as a path and written pairs -/

theorem tabs_url (req : Request) :
    tabs req = .upstreamGet ("/tabs" ++ "?" ++
      renderQuery [("lang", ToString (jsOr (req.query "lang") (.str "id_ID")))]) := by
  have e1 : ("/tabs?lang=" : String) = "/tabs" ++ "?" ++ "lang" ++ "=" := by decide
  simp only [tabs, renderQuery, renderPair, encodeURIComponent, e1, String.append_assoc]

theorem searchRecommend_url (req : Request) :
    searchRecommend req = .upstreamGet ("/search/recommend" ++ "?" ++
      renderQuery [("lang", ToString (jsOr (req.query "lang") (.str "id_ID")))]) := by
  have e1 : ("/search/recommend?lang=" : String) = "/search/recommend" ++ "?" ++ "lang" ++ "=" := by
    decide
  simp only [searchRecommend, renderQuery, renderPair, encodeURIComponent, e1,
    String.append_assoc]

theorem amp_limit : ("&limit=" : String) = "&" ++ "limit" ++ "=" := by decide
theorem amp_offset : ("&offset=" : String) = "&" ++ "offset" ++ "=" := by decide
theorem amp_lang : ("&lang=" : String) = "&" ++ "lang" ++ "=" := by decide

theorem home_url (req : Request) (h : truthy (req.query "tabId") = true) :
    home req = .upstreamGet ("/get-home" ++ "?" ++
      renderQuery [("tabId", ToString (req.query "tabId")),
        ("limit", ToString (dflt (req.query "limit") (.num 10))),
        ("offset", ToString (dflt (req.query "offset") (.num 0))),
        ("lang", ToString (dflt (req.query "lang") (.str "id_ID")))]) := by
  have e1 : ("/get-home?tabId=" : String) = "/get-home" ++ "?" ++ "tabId" ++ "=" := by decide
  simp only [home, h, Bool.not_true, Bool.false_eq_true, if_false, renderQuery, renderPair,
    encodeURIComponent, e1, amp_limit, amp_offset, amp_lang, String.append_assoc]

theorem recommend_url (req : Request) :
    recommend req = .upstreamGet ("/recommend" ++ "?" ++
      renderQuery [("limit", ToString (dflt (req.query "limit") (.num 10))),
        ("offset", ToString (dflt (req.query "offset") (.num 0))),
        ("lang", ToString (dflt (req.query "lang") (.str "id_ID")))]) := by
  have e1 : ("/recommend?limit=" : String) = "/recommend" ++ "?" ++ "limit" ++ "=" := by decide
  simp only [recommend, renderQuery, renderPair, encodeURIComponent, e1, amp_offset, amp_lang,
    String.append_assoc]

theorem member_url (req : Request) :
    member req = .upstreamGet ("/member" ++ "?" ++
      renderQuery [("limit", ToString (dflt (req.query "limit") (.num 10))),
        ("offset", ToString (dflt (req.query "offset") (.num 0))),
        ("lang", ToString (dflt (req.query "lang") (.str "id_ID")))]) := by
  have e1 : ("/member?limit=" : String) = "/member" ++ "?" ++ "limit" ++ "=" := by decide
  simp only [member, renderQuery, renderPair, encodeURIComponent, e1, amp_offset, amp_lang,
    String.append_assoc]

theorem search_url (req : Request) :
    search req = .upstreamGet ("/search" ++ "?" ++
      renderQuery [("keyword", ToString (dflt (req.query "keyword") (.str ""))),
        ("limit", ToString (dflt (req.query "limit") (.num 20))),
        ("offset", ToString (dflt (req.query "offset") (.num 0))),
        ("lang", ToString (dflt (req.query "lang") (.str "id_ID")))]) := by
  have e1 : ("/search?keyword=" : String) = "/search" ++ "?" ++ "keyword" ++ "=" := by decide
  simp only [search, renderQuery, renderPair, encodeURIComponent, e1, amp_limit, amp_offset,
    amp_lang, String.append_assoc]

theorem episodes_url (req : Request) :
    episodes req = .upstreamGet
      (("/getepisode/" ++ encodeURIComponent (req.params "shortPlayId")) ++ "?" ++
        renderQuery []) := by
  simp only [episodes, renderQuery, String.append_empty]

theorem video_url (req : Request) (h1 : truthy (req.query "shortPlayId") = true)
    (h2 : truthy (req.query "episodeId") = true) (h3 : truthy (req.query "episodeNo") = true) :
    video req = .upstreamGet
      (("/getepisode/" ++ encodeURIComponent (req.query "shortPlayId") ++ "/" ++
          encodeURIComponent (req.query "episodeId")) ++ "?" ++
        renderQuery [("episodeNo", ToString (req.query "episodeNo"))]) := by
  have e1 : ("?episodeNo=" : String) = "?" ++ "episodeNo" ++ "=" := by decide
  simp only [video, h1, h2, h3, Bool.not_true, Bool.or_self, Bool.false_eq_true, if_false,
    renderQuery, renderPair, encodeURIComponent, e1, String.append_assoc]

theorem Encode_no_delimiter (s : String) (sep : Char) (hsep : isDelimiter sep = true) :
    ∀ ch ∈ (Encode s).data, ch ≠ sep :=
  encodeChars_no_delimiter s.data sep hsep

theorem episodes_path_no_query (v : JSVal) :
    ∀ ch ∈ ("/getepisode/" ++ encodeURIComponent v).data, ch ≠ '?' := by
  intro ch h
  simp only [String.data_append, List.mem_append] at h
  rcases h with h | h
  · intro heq; subst heq; exact absurd h (by decide)
  · exact Encode_no_delimiter _ '?' (by decide) ch h

theorem video_path_no_query (v w : JSVal) :
    ∀ ch ∈ ("/getepisode/" ++ encodeURIComponent v ++ "/" ++ encodeURIComponent w).data,
      ch ≠ '?' := by
  intro ch h
  simp only [String.data_append, List.mem_append] at h
  rcases h with ((h | h) | h) | h
  · intro heq; subst heq; exact absurd h (by decide)
  · exact Encode_no_delimiter _ '?' (by decide) ch h
  · intro heq; subst heq; exact absurd h (by decide)
  · exact Encode_no_delimiter _ '?' (by decide) ch h

/-! ## Local answers -/

/-- C1: with `tabId` absent the `/netshort/home` handler, and with at least one
of `shortPlayId`, `episodeId`, `episodeNo` absent the `/netshort/video` handler,
answers locally with status 400 and a body whose `ok` is `false`; no upstream
request is issued, whatever the rest of the query and whatever the upstream
would have answered. -/
theorem missing_required_answers_400 :
    (∀ req : Request, req.query "tabId" = .undefined →
      ∃ body, home req = .respond ⟨.num 400, body⟩ ∧ optGet body "ok" = .bool false ∧
        (home req).upstreamCalls = 0 ∧ ∀ up, serve home up req = ⟨.num 400, body⟩) ∧
    (∀ req : Request,
      (req.query "shortPlayId" = .undefined ∨ req.query "episodeId" = .undefined ∨
        req.query "episodeNo" = .undefined) →
      ∃ body, video req = .respond ⟨.num 400, body⟩ ∧ optGet body "ok" = .bool false ∧
        (video req).upstreamCalls = 0 ∧ ∀ up, serve video up req = ⟨.num 400, body⟩) := by
  constructor
  · intro req h
    refine ⟨.obj [("ok", .bool false), ("message", .str "tabId required")], ?_⟩
    have e : home req = .respond ⟨.num 400,
        .obj [("ok", .bool false), ("message", .str "tabId required")]⟩ := by
      simp [home, h, truthy]
    refine ⟨e, rfl, ?_, ?_⟩
    · rw [e]; rfl
    · intro up; simp only [serve, e]
  · intro req h
    refine ⟨.obj [("ok", .bool false),
      ("message", .str "shortPlayId, episodeId, episodeNo required")], ?_⟩
    have e : video req = .respond ⟨.num 400, .obj [("ok", .bool false),
        ("message", .str "shortPlayId, episodeId, episodeNo required")]⟩ := by
      rcases h with h | h | h <;> simp [video, h, truthy]
    refine ⟨e, rfl, ?_, ?_⟩
    · rw [e]; rfl
    · intro up; simp only [serve, e]

/-- Witness of C1: `/netshort/home?limit=5` and
`/netshort/video?shortPlayId=abc&episodeNo=2`. -/
theorem missing_required_answers_400_witness :
    (∃ body, home (Request.ofQuery [("limit", .str "5")]) = .respond ⟨.num 400, body⟩ ∧
        optGet body "ok" = .bool false ∧
        (home (Request.ofQuery [("limit", .str "5")])).upstreamCalls = 0 ∧
        ∀ up, serve home up (Request.ofQuery [("limit", .str "5")]) = ⟨.num 400, body⟩) ∧
    (∃ body, video (Request.ofQuery [("shortPlayId", .str "abc"), ("episodeNo", .str "2")])
          = .respond ⟨.num 400, body⟩ ∧
        optGet body "ok" = .bool false ∧
        (video (Request.ofQuery [("shortPlayId", .str "abc"),
          ("episodeNo", .str "2")])).upstreamCalls = 0 ∧
        ∀ up, serve video up (Request.ofQuery [("shortPlayId", .str "abc"),
          ("episodeNo", .str "2")]) = ⟨.num 400, body⟩) :=
  ⟨missing_required_answers_400.1 (Request.ofQuery [("limit", .str "5")]) rfl,
   missing_required_answers_400.2
     (Request.ofQuery [("shortPlayId", .str "abc"), ("episodeNo", .str "2")])
     (Or.inr (Or.inl rfl))⟩

/-- C2, refuted as stated: on `/netshort/video` a request that omits only
`episodeId` is not answered with the message `episodeId required`. -/
theorem video_message_not_per_field :
    ¬ (∀ req : Request, req.query "episodeId" = .undefined →
        ∀ r, video req = .respond r → optGet r.body "message" = .str "episodeId required") := by
  intro h
  have h1 := h (Request.ofQuery [("shortPlayId", .str "abc"), ("episodeNo", .str "2")]) rfl
    ⟨.num 400, .obj [("ok", .bool false),
      ("message", .str "shortPlayId, episodeId, episodeNo required")]⟩ rfl
  have h2 : ("shortPlayId, episodeId, episodeNo required" : String) = "episodeId required" :=
    JSVal.str.inj h1
  exact absurd h2 (by decide)

/-- C2, amended: a missing `tabId` on `/netshort/home` is answered with status
400 and exactly `{ ok:false, message:"tabId required" }`; a missing
`shortPlayId`, `episodeId` or `episodeNo` on `/netshort/video` is answered with
status 400 and exactly
`{ ok:false, message:"shortPlayId, episodeId, episodeNo required" }`, whichever
of the three is missing. -/
theorem missing_required_message :
    (∀ req : Request, req.query "tabId" = .undefined →
      home req = .respond ⟨.num 400,
        .obj [("ok", .bool false), ("message", .str "tabId required")]⟩) ∧
    (∀ req : Request,
      (req.query "shortPlayId" = .undefined ∨ req.query "episodeId" = .undefined ∨
        req.query "episodeNo" = .undefined) →
      video req = .respond ⟨.num 400, .obj [("ok", .bool false),
        ("message", .str "shortPlayId, episodeId, episodeNo required")]⟩) := by
  constructor
  · intro req h
    simp [home, h, truthy]
  · intro req h
    rcases h with h | h | h <;> simp [video, h, truthy]

/-- Witness of the amended C2: `/netshort/home` with an empty query and
`/netshort/video?shortPlayId=abc&episodeNo=2`. -/
theorem missing_required_message_witness :
    home (Request.ofQuery []) = .respond ⟨.num 400,
        .obj [("ok", .bool false), ("message", .str "tabId required")]⟩ ∧
    video (Request.ofQuery [("shortPlayId", .str "abc"), ("episodeNo", .str "2")]) =
      .respond ⟨.num 400, .obj [("ok", .bool false),
        ("message", .str "shortPlayId, episodeId, episodeNo required")]⟩ :=
  ⟨missing_required_message.1 (Request.ofQuery []) rfl,
   missing_required_message.2
     (Request.ofQuery [("shortPlayId", .str "abc"), ("episodeNo", .str "2")])
     (Or.inr (Or.inl rfl))⟩

/-- C8: `/health` answers every request with status 200 and the body
`{ ok:true, name:"PANSA Proxy" }`, issues no upstream request, and its answer
does not depend on how the upstream would settle a call. -/
theorem health_always_ok (req : Request) (up : String → Settled) :
    serve health up req =
        ⟨.num 200, .obj [("ok", .bool true), ("name", .str "PANSA Proxy")]⟩ ∧
      health req =
        .respond ⟨.num 200, .obj [("ok", .bool true), ("name", .str "PANSA Proxy")]⟩ ∧
      (health req).upstreamCalls = 0 :=
  ⟨rfl, rfl, rfl⟩

/-! ## `forward` -/

/-- C7: a fulfilled upstream call, whatever its (2xx) status, is answered with
status exactly 200 and the upstream body `d` unchanged; so for the statuses
200, 201 and 204. -/
theorem forward_success_is_200_verbatim (st d : JSVal) :
    forward (.fulfilled ⟨st, d⟩) = ⟨.num 200, d⟩ ∧
      forward (.fulfilled ⟨.num 200, d⟩) = ⟨.num 200, d⟩ ∧
      forward (.fulfilled ⟨.num 201, d⟩) = ⟨.num 200, d⟩ ∧
      forward (.fulfilled ⟨.num 204, d⟩) = ⟨.num 200, d⟩ :=
  ⟨rfl, rfl, rfl, rfl⟩

/-- C5: a rejected upstream call is answered with the status of `err.response`
when that status is truthy (a non-zero number) and with 500 otherwise, and with
the body `{ ok:false, message:m }`, `m` being the upstream error body when it is
truthy, else the exception message when it is truthy, else `"Proxy error"`.
An upstream 404 with body `{msg:"not found"}` is answered 404 with
`{ ok:false, message:{msg:"not found"} }`; an error without a response and with
a non-empty message is answered 500 with that message. -/
theorem forward_failure_envelope :
    (∀ err : JSVal, ∃ status m,
      forward (.rejected err) = ⟨status, .obj [("ok", .bool false), ("message", m)]⟩ ∧
      (truthy (optGet (optGet err "response") "status") = true →
        status = optGet (optGet err "response") "status") ∧
      (∀ s : Int, optGet (optGet err "response") "status" = .num s → s ≠ 0 →
        status = .num s) ∧
      (truthy (optGet (optGet err "response") "status") = false → status = .num 500) ∧
      (optGet err "response" = .undefined → status = .num 500) ∧
      (truthy (optGet (optGet err "response") "data") = true →
        m = optGet (optGet err "response") "data") ∧
      (truthy (optGet (optGet err "response") "data") = false →
        truthy (optGet err "message") = true → m = optGet err "message") ∧
      (truthy (optGet (optGet err "response") "data") = false →
        truthy (optGet err "message") = false → m = .str "Proxy error")) ∧
    forward (.rejected (.obj [("message", .str "Request failed with status code 404"),
        ("response", .obj [("status", .num 404),
          ("data", .obj [("msg", .str "not found")])])])) =
      ⟨.num 404, .obj [("ok", .bool false),
        ("message", .obj [("msg", .str "not found")])]⟩ ∧
    (∀ (fields : List (String × JSVal)) (msg : String),
      lookupField "response" fields = .undefined →
      lookupField "message" fields = .str msg → msg ≠ "" →
      forward (.rejected (.obj fields)) =
        ⟨.num 500, .obj [("ok", .bool false), ("message", .str msg)]⟩) := by
  refine ⟨?_, rfl, ?_⟩
  · intro err
    refine ⟨jsOr (optGet (optGet err "response") "status") (.num 500),
      jsOr (optGet (optGet err "response") "data")
        (jsOr (optGet err "message") (.str "Proxy error")), rfl, ?_, ?_, ?_, ?_, ?_, ?_, ?_⟩
    · intro h; simp [jsOr, h]
    · intro s hs hne; simp [jsOr, hs, truthy, hne]
    · intro h; simp [jsOr, h]
    · intro h
      have h0 : optGet (optGet err "response") "status" = .undefined := by rw [h]; rfl
      simp [jsOr, h0, truthy]
    · intro h; simp [jsOr, h]
    · intro h1 h2; simp [jsOr, h1, h2]
    · intro h1 h2; simp [jsOr, h1, h2]
  · intro fields msg h1 h2 h3
    simp [forward, optGet, h1, h2, jsOr, truthy, h3]

/-- Witness of C5: the error of an axios timeout, which has no `response`. -/
theorem forward_failure_envelope_witness :
    forward (.rejected (.obj [("message", .str "timeout of 15000ms exceeded"),
        ("code", .str "ECONNABORTED")])) =
      ⟨.num 500, .obj [("ok", .bool false),
        ("message", .str "timeout of 15000ms exceeded")]⟩ :=
  forward_failure_envelope.2.2
    [("message", .str "timeout of 15000ms exceeded"), ("code", .str "ECONNABORTED")]
    "timeout of 15000ms exceeded" rfl rfl (by decide)

/-! ## Upstream URLs -/

/-- C3: with the optional query parameters omitted each forwarding route
builds its upstream URL from the documented defaults, the numbers 10, 20 and 0
being written in decimal; `/netshort/home` does so for every (truthy) `tabId`
`t`, written `encodeURIComponent(t)`. -/
theorem defaults_forwarded :
    (∀ req : Request, req.query "lang" = .undefined →
      tabs req = .upstreamGet "/tabs?lang=id_ID") ∧
    (∀ req : Request, req.query "lang" = .undefined →
      searchRecommend req = .upstreamGet "/search/recommend?lang=id_ID") ∧
    (∀ req : Request, req.query "limit" = .undefined → req.query "offset" = .undefined →
      req.query "lang" = .undefined →
      recommend req = .upstreamGet "/recommend?limit=10&offset=0&lang=id_ID") ∧
    (∀ req : Request, req.query "limit" = .undefined → req.query "offset" = .undefined →
      req.query "lang" = .undefined →
      member req = .upstreamGet "/member?limit=10&offset=0&lang=id_ID") ∧
    (∀ req : Request, req.query "keyword" = .undefined → req.query "limit" = .undefined →
      req.query "offset" = .undefined → req.query "lang" = .undefined →
      search req = .upstreamGet "/search?keyword=&limit=20&offset=0&lang=id_ID") ∧
    (∀ req : Request, truthy (req.query "tabId") = true → req.query "limit" = .undefined →
      req.query "offset" = .undefined → req.query "lang" = .undefined →
      home req = .upstreamGet ("/get-home?tabId=" ++ encodeURIComponent (req.query "tabId") ++
        "&limit=10&offset=0&lang=id_ID")) ∧
    (∀ (req : Request) (t : String), req.query "tabId" = .str t → t ≠ "" →
      req.query "limit" = .undefined → req.query "offset" = .undefined →
      req.query "lang" = .undefined →
      home req = .upstreamGet ("/get-home?tabId=" ++ Encode t ++
        "&limit=10&offset=0&lang=id_ID")) := by
  have hhome : ∀ req : Request, truthy (req.query "tabId") = true →
      req.query "limit" = .undefined → req.query "offset" = .undefined →
      req.query "lang" = .undefined →
      home req = .upstreamGet ("/get-home?tabId=" ++ encodeURIComponent (req.query "tabId") ++
        "&limit=10&offset=0&lang=id_ID") := by
    intro req ht h1 h2 h3
    have e : ("&limit=10&offset=0&lang=id_ID" : String) =
        ("&limit=" ++ encodeURIComponent (.num 10)) ++
          (("&offset=" ++ encodeURIComponent (.num 0)) ++
            ("&lang=" ++ encodeURIComponent (.str "id_ID"))) := by decide
    simp only [home, ht, h1, h2, h3, dflt, Bool.not_true, Bool.false_eq_true, if_false, e,
      String.append_assoc]
  refine ⟨?_, ?_, ?_, ?_, ?_, hhome, ?_⟩
  · intro req h
    simp only [tabs, h, jsOr, truthy, Bool.false_eq_true, if_false]
    rfl
  · intro req h
    simp only [searchRecommend, h, jsOr, truthy, Bool.false_eq_true, if_false]
    rfl
  · intro req h1 h2 h3
    simp only [recommend, h1, h2, h3, dflt]
    rfl
  · intro req h1 h2 h3
    simp only [member, h1, h2, h3, dflt]
    rfl
  · intro req h0 h1 h2 h3
    simp only [search, h0, h1, h2, h3, dflt]
    rfl
  · intro req t ht hne h1 h2 h3
    have htr : truthy (req.query "tabId") = true := by simp [ht, truthy, hne]
    have := hhome req htr h1 h2 h3
    rw [ht] at this
    exact this

/-- Witness of C3: the empty query on five routes and `tabId=7` on
`/netshort/home`. -/
theorem defaults_forwarded_witness :
    tabs (Request.ofQuery []) = .upstreamGet "/tabs?lang=id_ID" ∧
    searchRecommend (Request.ofQuery []) = .upstreamGet "/search/recommend?lang=id_ID" ∧
    recommend (Request.ofQuery []) = .upstreamGet "/recommend?limit=10&offset=0&lang=id_ID" ∧
    member (Request.ofQuery []) = .upstreamGet "/member?limit=10&offset=0&lang=id_ID" ∧
    search (Request.ofQuery []) =
      .upstreamGet "/search?keyword=&limit=20&offset=0&lang=id_ID" ∧
    home (Request.ofQuery [("tabId", .num 7)]) =
      .upstreamGet ("/get-home?tabId=" ++ encodeURIComponent (.num 7) ++
        "&limit=10&offset=0&lang=id_ID") ∧
    home (Request.ofQuery [("tabId", .str "7")]) =
      .upstreamGet ("/get-home?tabId=" ++ Encode "7" ++ "&limit=10&offset=0&lang=id_ID") :=
  ⟨defaults_forwarded.1 (Request.ofQuery []) rfl,
   defaults_forwarded.2.1 (Request.ofQuery []) rfl,
   defaults_forwarded.2.2.1 (Request.ofQuery []) rfl rfl rfl,
   defaults_forwarded.2.2.2.1 (Request.ofQuery []) rfl rfl rfl,
   defaults_forwarded.2.2.2.2.1 (Request.ofQuery []) rfl rfl rfl rfl,
   defaults_forwarded.2.2.2.2.2.1 (Request.ofQuery [("tabId", .num 7)]) rfl rfl rfl rfl,
   defaults_forwarded.2.2.2.2.2.2 (Request.ofQuery [("tabId", .str "7")]) "7" rfl (by decide)
     rfl rfl rfl⟩

/-- C6: when `shortPlayId`, `episodeId` and `episodeNo` are non-empty strings,
`/netshort/video` issues one upstream GET, of
`/getepisode/<enc shortPlayId>/<enc episodeId>?episodeNo=<enc episodeNo>`; for
`abc`, `7`, `2` that is `/getepisode/abc/7?episodeNo=2`. -/
theorem video_forwards (req : Request) (s e n : String)
    (hs : req.query "shortPlayId" = .str s) (he : req.query "episodeId" = .str e)
    (hn : req.query "episodeNo" = .str n) (hs0 : s ≠ "") (he0 : e ≠ "") (hn0 : n ≠ "") :
    video req = .upstreamGet
        ("/getepisode/" ++ Encode s ++ "/" ++ Encode e ++ "?episodeNo=" ++ Encode n) ∧
      (video req).upstreamCalls = 1 ∧
      video (Request.ofQuery [("shortPlayId", .str "abc"), ("episodeId", .str "7"),
        ("episodeNo", .str "2")]) = .upstreamGet "/getepisode/abc/7?episodeNo=2" := by
  have e1 : video req = .upstreamGet
      ("/getepisode/" ++ Encode s ++ "/" ++ Encode e ++ "?episodeNo=" ++ Encode n) := by
    simp [video, hs, he, hn, truthy, hs0, he0, hn0, encodeURIComponent, ToString,
      String.append_assoc]
  refine ⟨e1, ?_, rfl⟩
  rw [e1]; rfl

/-- Witness of C6: `shortPlayId=a/b`, `episodeId=7`, `episodeNo=2`. -/
theorem video_forwards_witness :
    video (Request.ofQuery [("shortPlayId", .str "a/b"), ("episodeId", .str "7"),
        ("episodeNo", .str "2")]) = .upstreamGet
        ("/getepisode/" ++ Encode "a/b" ++ "/" ++ Encode "7" ++ "?episodeNo=" ++ Encode "2") ∧
      (video (Request.ofQuery [("shortPlayId", .str "a/b"), ("episodeId", .str "7"),
        ("episodeNo", .str "2")])).upstreamCalls = 1 ∧
      video (Request.ofQuery [("shortPlayId", .str "abc"), ("episodeId", .str "7"),
        ("episodeNo", .str "2")]) = .upstreamGet "/getepisode/abc/7?episodeNo=2" :=
  video_forwards (Request.ofQuery [("shortPlayId", .str "a/b"), ("episodeId", .str "7"),
    ("episodeNo", .str "2")]) "a/b" "7" "2" rfl rfl rfl (by decide) (by decide) (by decide)

/-! ## Empty values and defaults -/

/-- C10: an empty `lang` is replaced by `id_ID` on `/netshort/tabs` and
`/netshort/search/recommend` (the URL is that of a request without `lang`);
on `/netshort/home`, `/netshort/recommend`, `/netshort/member` and
`/netshort/search` an empty `lang` is forwarded as `&lang=`, an empty `limit`
or `offset` as `limit=` or `offset=`, and every `lang` that is present is
forwarded as it is: the default stands in for an absent parameter only. -/
theorem empty_lang_default_on_two_routes :
    (∀ req : Request, req.query "lang" = .str "" →
      tabs req = .upstreamGet "/tabs?lang=id_ID") ∧
    (∀ req : Request, req.query "lang" = .str "" →
      searchRecommend req = .upstreamGet "/search/recommend?lang=id_ID") ∧
    (∀ req : Request, truthy (req.query "tabId") = true → req.query "lang" ≠ .undefined →
      home req = .upstreamGet
        ("/get-home?tabId=" ++ encodeURIComponent (req.query "tabId") ++
          "&limit=" ++ encodeURIComponent (dflt (req.query "limit") (.num 10)) ++
          "&offset=" ++ encodeURIComponent (dflt (req.query "offset") (.num 0)) ++
          "&lang=" ++ encodeURIComponent (req.query "lang"))) ∧
    (∀ req : Request, req.query "lang" ≠ .undefined →
      recommend req = .upstreamGet
        ("/recommend?limit=" ++ encodeURIComponent (dflt (req.query "limit") (.num 10)) ++
          "&offset=" ++ encodeURIComponent (dflt (req.query "offset") (.num 0)) ++
          "&lang=" ++ encodeURIComponent (req.query "lang"))) ∧
    (∀ req : Request, req.query "lang" ≠ .undefined →
      member req = .upstreamGet
        ("/member?limit=" ++ encodeURIComponent (dflt (req.query "limit") (.num 10)) ++
          "&offset=" ++ encodeURIComponent (dflt (req.query "offset") (.num 0)) ++
          "&lang=" ++ encodeURIComponent (req.query "lang"))) ∧
    (∀ req : Request, req.query "lang" ≠ .undefined →
      search req = .upstreamGet
        ("/search?keyword=" ++ encodeURIComponent (dflt (req.query "keyword") (.str "")) ++
          "&limit=" ++ encodeURIComponent (dflt (req.query "limit") (.num 20)) ++
          "&offset=" ++ encodeURIComponent (dflt (req.query "offset") (.num 0)) ++
          "&lang=" ++ encodeURIComponent (req.query "lang"))) ∧
    (∀ (req : Request) (t : String), req.query "tabId" = .str t → t ≠ "" →
      req.query "limit" = .str "" → req.query "offset" = .str "" →
      req.query "lang" = .str "" →
      home req = .upstreamGet ("/get-home?tabId=" ++ Encode t ++ "&limit=&offset=&lang=")) ∧
    (∀ req : Request, req.query "limit" = .str "" → req.query "offset" = .str "" →
      req.query "lang" = .str "" →
      recommend req = .upstreamGet "/recommend?limit=&offset=&lang=") ∧
    (∀ req : Request, req.query "limit" = .str "" → req.query "offset" = .str "" →
      req.query "lang" = .str "" →
      member req = .upstreamGet "/member?limit=&offset=&lang=") ∧
    (∀ (req : Request) (k : String), req.query "keyword" = .str k →
      req.query "limit" = .str "" → req.query "offset" = .str "" →
      req.query "lang" = .str "" →
      search req = .upstreamGet ("/search?keyword=" ++ Encode k ++ "&limit=&offset=&lang=")) ∧
    (∀ req : Request, req.query "limit" = .undefined → req.query "offset" = .undefined →
      req.query "lang" = .str "" →
      recommend req = .upstreamGet "/recommend?limit=10&offset=0&lang=") := by
  have hd : ∀ v d : JSVal, v ≠ .undefined → dflt v d = v := by
    intro v d h
    cases v <;> first | rfl | exact absurd rfl h
  refine ⟨?_, ?_, ?_, ?_, ?_, ?_, ?_, ?_, ?_, ?_, ?_⟩
  · intro req h
    simp only [tabs, h, jsOr, truthy, bne_self_eq_false, Bool.false_eq_true, if_false]
    rfl
  · intro req h
    simp only [searchRecommend, h, jsOr, truthy, bne_self_eq_false, Bool.false_eq_true,
      if_false]
    rfl
  · intro req ht h
    simp only [home, ht, hd _ _ h, Bool.not_true, Bool.false_eq_true, if_false,
      String.append_assoc]
  · intro req h
    simp only [recommend, hd _ _ h, String.append_assoc]
  · intro req h
    simp only [member, hd _ _ h, String.append_assoc]
  · intro req h
    simp only [search, hd _ _ h, String.append_assoc]
  · intro req t ht hne h1 h2 h3
    have htr : truthy (.str t) = true := by simp [truthy, hne]
    have e : ("&limit=&offset=&lang=" : String) =
        ("&limit=" ++ encodeURIComponent (.str "")) ++
          (("&offset=" ++ encodeURIComponent (.str "")) ++
            ("&lang=" ++ encodeURIComponent (.str ""))) := by decide
    simp only [home, ht, htr, h1, h2, h3, dflt, Bool.not_true, Bool.false_eq_true, if_false, e,
      String.append_assoc]
    rfl
  · intro req h1 h2 h3
    simp only [recommend, h1, h2, h3, dflt]
    rfl
  · intro req h1 h2 h3
    simp only [member, h1, h2, h3, dflt]
    rfl
  · intro req k hk h1 h2 h3
    have e : ("&limit=&offset=&lang=" : String) =
        ("&limit=" ++ encodeURIComponent (.str "")) ++
          (("&offset=" ++ encodeURIComponent (.str "")) ++
            ("&lang=" ++ encodeURIComponent (.str ""))) := by decide
    simp only [search, hk, h1, h2, h3, dflt, e, String.append_assoc]
    rfl
  · intro req h1 h2 h3
    simp only [recommend, h1, h2, h3, dflt]
    rfl

/-- Witness of C10: `lang=` (empty) on each of the six routes. -/
theorem empty_lang_default_on_two_routes_witness :
    tabs (Request.ofQuery [("lang", .str "")]) = .upstreamGet "/tabs?lang=id_ID" ∧
    searchRecommend (Request.ofQuery [("lang", .str "")]) =
      .upstreamGet "/search/recommend?lang=id_ID" ∧
    home (Request.ofQuery [("tabId", .str "7"), ("limit", .str ""), ("offset", .str ""),
      ("lang", .str "")]) =
      .upstreamGet ("/get-home?tabId=" ++ Encode "7" ++ "&limit=&offset=&lang=") ∧
    recommend (Request.ofQuery [("limit", .str ""), ("offset", .str ""), ("lang", .str "")]) =
      .upstreamGet "/recommend?limit=&offset=&lang=" ∧
    member (Request.ofQuery [("limit", .str ""), ("offset", .str ""), ("lang", .str "")]) =
      .upstreamGet "/member?limit=&offset=&lang=" ∧
    search (Request.ofQuery [("keyword", .str "x"), ("limit", .str ""), ("offset", .str ""),
      ("lang", .str "")]) =
      .upstreamGet ("/search?keyword=" ++ Encode "x" ++ "&limit=&offset=&lang=") ∧
    recommend (Request.ofQuery [("lang", .str "")]) =
      .upstreamGet "/recommend?limit=10&offset=0&lang=" ∧
    home (Request.ofQuery [("tabId", .str "7"), ("lang", .str "")]) = .upstreamGet
      ("/get-home?tabId=" ++ encodeURIComponent (.str "7") ++
        "&limit=" ++ encodeURIComponent (dflt .undefined (.num 10)) ++
        "&offset=" ++ encodeURIComponent (dflt .undefined (.num 0)) ++
        "&lang=" ++ encodeURIComponent (.str "")) ∧
    recommend (Request.ofQuery [("lang", .str "")]) = .upstreamGet
      ("/recommend?limit=" ++ encodeURIComponent (dflt .undefined (.num 10)) ++
        "&offset=" ++ encodeURIComponent (dflt .undefined (.num 0)) ++
        "&lang=" ++ encodeURIComponent (.str "")) ∧
    member (Request.ofQuery [("lang", .str "")]) = .upstreamGet
      ("/member?limit=" ++ encodeURIComponent (dflt .undefined (.num 10)) ++
        "&offset=" ++ encodeURIComponent (dflt .undefined (.num 0)) ++
        "&lang=" ++ encodeURIComponent (.str "")) ∧
    search (Request.ofQuery [("lang", .str "")]) = .upstreamGet
      ("/search?keyword=" ++ encodeURIComponent (dflt .undefined (.str "")) ++
        "&limit=" ++ encodeURIComponent (dflt .undefined (.num 20)) ++
        "&offset=" ++ encodeURIComponent (dflt .undefined (.num 0)) ++
        "&lang=" ++ encodeURIComponent (.str "")) :=
  ⟨empty_lang_default_on_two_routes.1 (Request.ofQuery [("lang", .str "")]) rfl,
   empty_lang_default_on_two_routes.2.1 (Request.ofQuery [("lang", .str "")]) rfl,
   empty_lang_default_on_two_routes.2.2.2.2.2.2.1
     (Request.ofQuery [("tabId", .str "7"), ("limit", .str ""), ("offset", .str ""),
       ("lang", .str "")]) "7" rfl (by decide) rfl rfl rfl,
   empty_lang_default_on_two_routes.2.2.2.2.2.2.2.1
     (Request.ofQuery [("limit", .str ""), ("offset", .str ""), ("lang", .str "")]) rfl rfl rfl,
   empty_lang_default_on_two_routes.2.2.2.2.2.2.2.2.1
     (Request.ofQuery [("limit", .str ""), ("offset", .str ""), ("lang", .str "")]) rfl rfl rfl,
   empty_lang_default_on_two_routes.2.2.2.2.2.2.2.2.2.1
     (Request.ofQuery [("keyword", .str "x"), ("limit", .str ""), ("offset", .str ""),
       ("lang", .str "")]) "x" rfl rfl rfl rfl,
   empty_lang_default_on_two_routes.2.2.2.2.2.2.2.2.2.2
     (Request.ofQuery [("lang", .str "")]) rfl rfl rfl,
   empty_lang_default_on_two_routes.2.2.1
     (Request.ofQuery [("tabId", .str "7"), ("lang", .str "")]) rfl (fun h => nomatch h),
   empty_lang_default_on_two_routes.2.2.2.1
     (Request.ofQuery [("lang", .str "")]) (fun h => nomatch h),
   empty_lang_default_on_two_routes.2.2.2.2.1
     (Request.ofQuery [("lang", .str "")]) (fun h => nomatch h),
   empty_lang_default_on_two_routes.2.2.2.2.2.1
     (Request.ofQuery [("lang", .str "")]) (fun h => nomatch h)⟩

/-! ## Values never leak into the query structure -/

/-- C4, refuted as stated: on `/netshort/tabs` the string value `lang=""` is
not read back from the upstream query, which carries `lang=id_ID`. -/
theorem tabs_empty_lang_not_read_back :
    ¬ (∀ (req : Request) (g : String), req.query "lang" = .str g →
        (tabs req).queryPairs = some [("lang", g)]) := by
  intro h
  have h1 := h (Request.ofQuery [("lang", .str "")]) "" rfl
  have h2 : (tabs (Request.ofQuery [("lang", .str "")])).queryPairs =
      some [("lang", "id_ID")] := by decide
  rw [h2] at h1
  exact absurd h1 (by decide)

/-- C4, amended: on every forwarding route the query of the upstream URL,
split at `&`, each piece cut at its first `=` and percent-decoded, is the
route's fixed list of keys in order, each paired with the value the handler
forwards (`ToString` of the parameter, or of its default when the default
applies): for a parameter given as a string that is the original string, except
that `/netshort/tabs` and `/netshort/search/recommend` forward `id_ID` for an
empty `lang`.  An escaped value contains none of `&`, `=`, `?`, `#`, `/` or
space and is decoded back to the value. -/
theorem query_pairs_read_back :
    (∀ (s : String) (ch : Char), ch ∈ (Encode s).data →
      ch ≠ '&' ∧ ch ≠ '=' ∧ ch ≠ '?' ∧ ch ≠ '#' ∧ ch ≠ '/' ∧ ch ≠ ' ') ∧
    (∀ s : String, decodeURIComponent (Encode s) = some s) ∧
    (∀ (s : String) (d : JSVal), ToString (dflt (.str s) d) = s) ∧
    (∀ (s : String) (d : JSVal), s ≠ "" → ToString (jsOr (.str s) d) = s) ∧
    ToString (jsOr (.str "") (.str "id_ID")) = "id_ID" ∧
    (∀ req : Request, (languages req).queryPairs = some []) ∧
    (∀ req : Request, (tabs req).queryPairs =
      some [("lang", ToString (jsOr (req.query "lang") (.str "id_ID")))]) ∧
    (∀ req : Request, (searchRecommend req).queryPairs =
      some [("lang", ToString (jsOr (req.query "lang") (.str "id_ID")))]) ∧
    (∀ req : Request, truthy (req.query "tabId") = true →
      (home req).queryPairs =
        some [("tabId", ToString (req.query "tabId")),
          ("limit", ToString (dflt (req.query "limit") (.num 10))),
          ("offset", ToString (dflt (req.query "offset") (.num 0))),
          ("lang", ToString (dflt (req.query "lang") (.str "id_ID")))]) ∧
    (∀ req : Request, (recommend req).queryPairs =
      some [("limit", ToString (dflt (req.query "limit") (.num 10))),
        ("offset", ToString (dflt (req.query "offset") (.num 0))),
        ("lang", ToString (dflt (req.query "lang") (.str "id_ID")))]) ∧
    (∀ req : Request, (member req).queryPairs =
      some [("limit", ToString (dflt (req.query "limit") (.num 10))),
        ("offset", ToString (dflt (req.query "offset") (.num 0))),
        ("lang", ToString (dflt (req.query "lang") (.str "id_ID")))]) ∧
    (∀ req : Request, (search req).queryPairs =
      some [("keyword", ToString (dflt (req.query "keyword") (.str ""))),
        ("limit", ToString (dflt (req.query "limit") (.num 20))),
        ("offset", ToString (dflt (req.query "offset") (.num 0))),
        ("lang", ToString (dflt (req.query "lang") (.str "id_ID")))]) ∧
    (∀ req : Request, (episodes req).queryPairs = some []) ∧
    (∀ req : Request, truthy (req.query "shortPlayId") = true →
      truthy (req.query "episodeId") = true → truthy (req.query "episodeNo") = true →
      (video req).queryPairs = some [("episodeNo", ToString (req.query "episodeNo"))]) ∧
    (∀ (req : Request) (k l o g : String), req.query "keyword" = .str k →
      req.query "limit" = .str l → req.query "offset" = .str o → req.query "lang" = .str g →
      (search req).queryPairs =
        some [("keyword", k), ("limit", l), ("offset", o), ("lang", g)]) ∧
    (∀ (req : Request) (k : String), req.query "keyword" = .str k →
      req.query "limit" = .undefined → req.query "offset" = .undefined →
      req.query "lang" = .undefined →
      (search req).queryPairs =
        some [("keyword", k), ("limit", "20"), ("offset", "0"), ("lang", "id_ID")]) := by
  have hlit : ∀ (p : String), p.data.all (fun ch => ch != '?') = true →
      ∀ ch ∈ p.data, ch ≠ '?' := by
    intro p hp ch hch
    have := (List.all_eq_true.mp hp) ch hch
    simpa using this
  have hsearch : ∀ req : Request, (search req).queryPairs =
      some [("keyword", ToString (dflt (req.query "keyword") (.str ""))),
        ("limit", ToString (dflt (req.query "limit") (.num 20))),
        ("offset", ToString (dflt (req.query "offset") (.num 0))),
        ("lang", ToString (dflt (req.query "lang") (.str "id_ID")))] := by
    intro req
    rw [search_url]
    exact queryPairs_render _ _ (hlit _ (by decide)) (keys_plain _ rfl)
  refine ⟨?_, decodeURIComponent_Encode, fun _ _ => rfl, ?_, rfl, fun _ => rfl,
    ?_, ?_, ?_, ?_, ?_, hsearch, ?_, ?_, ?_, ?_⟩
  · intro s ch h
    exact ⟨Encode_no_delimiter s '&' (by decide) ch h, Encode_no_delimiter s '=' (by decide) ch h,
      Encode_no_delimiter s '?' (by decide) ch h, Encode_no_delimiter s '#' (by decide) ch h,
      Encode_no_delimiter s '/' (by decide) ch h, Encode_no_delimiter s ' ' (by decide) ch h⟩
  · intro s d hne
    simp [jsOr, truthy, hne, ToString]
  · intro req
    rw [tabs_url]
    exact queryPairs_render _ _ (hlit _ (by decide)) (keys_plain _ rfl)
  · intro req
    rw [searchRecommend_url]
    exact queryPairs_render _ _ (hlit _ (by decide)) (keys_plain _ rfl)
  · intro req ht
    rw [home_url req ht]
    exact queryPairs_render _ _ (hlit _ (by decide)) (keys_plain _ rfl)
  · intro req
    rw [recommend_url]
    exact queryPairs_render _ _ (hlit _ (by decide)) (keys_plain _ rfl)
  · intro req
    rw [member_url]
    exact queryPairs_render _ _ (hlit _ (by decide)) (keys_plain _ rfl)
  · intro req
    rw [episodes_url]
    exact queryPairs_render _ _ (episodes_path_no_query _) (keys_plain _ rfl)
  · intro req h1 h2 h3
    rw [video_url req h1 h2 h3]
    exact queryPairs_render _ _ (video_path_no_query _ _) (keys_plain _ rfl)
  · intro req k l o g hk hl ho hg
    have := hsearch req
    simpa [hk, hl, ho, hg, dflt, ToString] using this
  · intro req k hk hl ho hg
    have := hsearch req
    rw [hk, hl, ho, hg] at this
    exact this

/-- Witness of the amended C4: `/netshort/search?keyword=a%26b%3Dc%20d%25`
with `limit=5`, `offset=0`, `lang=en` and on its own, `/netshort/home?tabId=a%26b`
and `/netshort/video?shortPlayId=a%2Fb&episodeId=7&episodeNo=2%263`. -/
theorem query_pairs_read_back_witness :
    (search (Request.ofQuery [("keyword", .str "a&b=c d%"), ("limit", .str "5"),
        ("offset", .str "0"), ("lang", .str "en")])).queryPairs =
      some [("keyword", "a&b=c d%"), ("limit", "5"), ("offset", "0"), ("lang", "en")] ∧
    (home (Request.ofQuery [("tabId", .str "a&b")])).queryPairs =
      some [("tabId", ToString (.str "a&b")),
        ("limit", ToString (dflt .undefined (.num 10))),
        ("offset", ToString (dflt .undefined (.num 0))),
        ("lang", ToString (dflt .undefined (.str "id_ID")))] ∧
    (search (Request.ofQuery [("keyword", .str "a&b=c d%")])).queryPairs =
      some [("keyword", "a&b=c d%"), ("limit", "20"), ("offset", "0"), ("lang", "id_ID")] ∧
    (video (Request.ofQuery [("shortPlayId", .str "a/b"), ("episodeId", .str "7"),
        ("episodeNo", .str "2&3")])).queryPairs =
      some [("episodeNo", ToString (.str "2&3"))] ∧
    ToString (jsOr (.str "en") (.str "id_ID")) = "en" :=
  ⟨query_pairs_read_back.2.2.2.2.2.2.2.2.2.2.2.2.2.2.1
     (Request.ofQuery [("keyword", .str "a&b=c d%"), ("limit", .str "5"),
        ("offset", .str "0"), ("lang", .str "en")]) "a&b=c d%" "5" "0" "en" rfl rfl rfl rfl,
   query_pairs_read_back.2.2.2.2.2.2.2.2.1 (Request.ofQuery [("tabId", .str "a&b")]) rfl,
   query_pairs_read_back.2.2.2.2.2.2.2.2.2.2.2.2.2.2.2
     (Request.ofQuery [("keyword", .str "a&b=c d%")]) "a&b=c d%" rfl rfl rfl rfl,
   query_pairs_read_back.2.2.2.2.2.2.2.2.2.2.2.2.2.1
     (Request.ofQuery [("shortPlayId", .str "a/b"), ("episodeId", .str "7"),
        ("episodeNo", .str "2&3")]) rfl rfl rfl,
   query_pairs_read_back.2.2.2.1 "en" (.str "id_ID") (by decide)⟩

/-- What does hold of an interpolated path segment: it contains none of `/`,
`?` and `#`, and that of a non-empty string is not empty. -/
theorem path_segment_holds_no_delimiter (v : JSVal) (s : String) :
    (∀ ch ∈ (encodeURIComponent v).data, ch ≠ '/' ∧ ch ≠ '?' ∧ ch ≠ '#') ∧
      (s ≠ "" → encodeURIComponent (.str s) ≠ "") := by
  constructor
  · intro ch h
    exact ⟨Encode_no_delimiter _ '/' (by decide) ch h,
      Encode_no_delimiter _ '?' (by decide) ch h, Encode_no_delimiter _ '#' (by decide) ch h⟩
  · intro hs he
    apply hs
    have h1 := decodeURIComponent_Encode s
    have h2 : Encode s = "" := he
    rw [h2] at h1
    have h3 : decodeURIComponent "" = some "" := by decide
    rw [h3] at h1
    exact (Option.some.inj h1).symm

/-- C9, evaluated where it fails: `encodeURIComponent` leaves `..` as it is, so
`/netshort/video?shortPlayId=..&episodeId=7&episodeNo=2` calls
`/getepisode/../7?episodeNo=2`, whose path is `/7` once dot segments are
removed, and `/netshort/episodes/..` calls `/getepisode/..?`, whose path is
`/`: neither begins with `/getepisode/`. -/
theorem dot_segment_leaves_getepisode :
    video (Request.ofQuery [("shortPlayId", .str ".."), ("episodeId", .str "7"),
        ("episodeNo", .str "2")]) = .upstreamGet "/getepisode/../7?episodeNo=2" ∧
      encodeURIComponent (.str "..") = ".." ∧
      removeDotSegments (urlPath "/getepisode/../7?episodeNo=2") = "/7" ∧
      ("/getepisode/".data).isPrefixOf
        (removeDotSegments (urlPath "/getepisode/../7?episodeNo=2")).data = false ∧
      episodes ⟨fun _ => .undefined, fun _ => .str ".."⟩ = .upstreamGet "/getepisode/..?" ∧
      removeDotSegments (urlPath "/getepisode/..?") = "/" ∧
      ("/getepisode/".data).isPrefixOf
        (removeDotSegments (urlPath "/getepisode/..?")).data = false := by
  refine ⟨rfl, by decide, by decide, by decide, rfl, by decide, by decide⟩

end NetShort
